import Mathlib

/-! Update workflow of the Flink deployer.

A shallow embedding of `cmd/cli/operations/update_job.go` and of the savepoint
part of `cmd/cli/flink/savepoint.go`, with the properties of the update
workflow stated and proved over it.

Conventions of the embedding:

* a Go `string` is a Lean `String`; `len(s) == 0` is `s = ""` and
  `strings.HasPrefix` is the list-prefix test on the characters (for
  well-formed UTF-8 text the byte-wise and the character-wise tests agree);
* a Go `error` is `Option String`: `none` is `nil`, `some m` is an error whose
  `Error()` text is `m`;
* a Go call returning `(value, error)` returns a pair;
* the control plane (the `FlinkRestAPI` interface, reached over HTTP) is an
  explicit value of type `World` holding its answers, and every operation
  returns the list of control-plane events it caused, oldest first.
-/

set_option autoImplicit false

namespace flink

/-- The `flink.Job` record: the fields the update workflow reads. -/
structure Job where
  ID : String
  Name : String
  Status : String
  deriving DecidableEq, Repr

/-- Response body of the create-savepoint API. -/
structure CreateSavepointResponse where
  RequestID : String
  deriving DecidableEq, Repr

/-- Savepoint creation status used by the API. -/
structure SavepointCreationStatus where
  Id : String
  deriving DecidableEq, Repr

/-- Outcome part of a savepoint status. -/
structure SavepointCreationOperation where
  Location : String
  FailureCause : String
  deriving DecidableEq, Repr

/-- Response body of the savepoint monitoring API. -/
structure MonitorSavepointCreationResponse where
  Status : SavepointCreationStatus
  Operation : SavepointCreationOperation
  deriving DecidableEq, Repr

/-- The Go zero value `MonitorSavepointCreationResponse{}`. -/
def MonitorSavepointCreationResponse.zero : MonitorSavepointCreationResponse :=
  { Status := { Id := "" }, Operation := { Location := "", FailureCause := "" } }


/-- A value stored in the untyped request map (`interface{}`): the two kinds
`CreateSavepoint` stores. -/
inductive JsonValue where
  | str (s : String)
  | bool (b : Bool)
  deriving DecidableEq, Repr

/-- Go `map[string]interface{}` as the list of its entries, one per key. -/
abbrev createSavepointRequest := List (String × JsonValue)

/-- Go map assignment `m[k] = v`: replaces the entry of `k`, or adds one. -/
def mapSet (m : createSavepointRequest) (k : String) (v : JsonValue) : createSavepointRequest :=
  match m with
  | [] => [(k, v)]
  | (k1, v1) :: rest => if k1 = k then (k, v) :: rest else (k1, v1) :: mapSet rest k v

/-- Go map read `m[k]` with its presence flag. -/
def mapGet (m : createSavepointRequest) (k : String) : Option JsonValue :=
  match m with
  | [] => none
  | (k1, v1) :: rest => if k1 = k then some v1 else mapGet rest k

/-- The keys present in the map. -/
def mapKeys (m : createSavepointRequest) : List String :=
  m.map Prod.fst

/-- An HTTP response as `CreateSavepoint` reads it: status code, and the body
with the error of reading it. -/
structure HttpResponse where
  StatusCode : Nat
  Body : String
  ReadError : Option String

/-- The HTTP side of `FlinkRestClient`: `constructURL` (declared elsewhere in
the package) and the client's `Post`, which receives the URL, the content type
and the JSON-encoded request map. -/
structure FlinkRestClient where
  constructURL : String → String
  Post : String → String → createSavepointRequest → HttpResponse × Option String
  Unmarshal : String → Option CreateSavepointResponse

/-- What one call of `CreateSavepoint` sent and returned. -/
structure CreateSavepointCall where
  url : String
  contentType : String
  body : createSavepointRequest
  response : CreateSavepointResponse
  err : Option String

/-- Source `FlinkRestClient.CreateSavepoint`, lines 20 to 25: the request map. -/
def CreateSavepoint.req (savepointDir : String) : createSavepointRequest :=
  let req : createSavepointRequest := []
  let req := if savepointDir.length > 0 then
      -- The target-directory attribute is omitted for the cluster default
      mapSet req "target-directory" (JsonValue.str savepointDir)
    else req
  mapSet req "cancel-job" (JsonValue.bool true)

/-- Source `FlinkRestClient.CreateSavepoint`. -/
def CreateSavepoint (c : FlinkRestClient) (jobID savepointDir : String) : CreateSavepointCall :=
  let req := CreateSavepoint.req savepointDir
  let url := c.constructURL ("jobs/" ++ jobID ++ "/savepoints")
  let sent (r : CreateSavepointResponse) (e : Option String) : CreateSavepointCall :=
    { url := url, contentType := "application/json", body := req, response := r, err := e }
  match c.Post url "application/json" req with
  | (_, some e) => sent { RequestID := "" } (some e)
  | (res, none) =>
    match res.ReadError with
    | some e => sent { RequestID := "" } (some e)
    | none =>
      if res.StatusCode ≠ 202 then
        sent { RequestID := "" } (some ("Unexpected response status " ++ toString res.StatusCode
          ++ " with body " ++ res.Body))
      else
        match c.Unmarshal res.Body with
        | none => sent { RequestID := "" }
            (some ("Unable to parse API response as valid JSON: " ++ res.Body))
        | some response => sent response none

end flink

namespace operations

open flink

/-- Go `strings.HasPrefix s p`: `s` begins with `p`. -/
def hasPrefix (s p : String) : Bool :=
  p.toList.isPrefixOf s.toList

/-- The loop of `filterJobsByRunningAndNameBase`: `ret` is the slice built so
far, the jobs are visited front to back and a kept job is appended. -/
def filterLoop (jobNameBase : String) : List Job → List Job → List Job
  | ret, [] => ret
  | ret, job :: rest =>
    if job.Status == "RUNNING" && hasPrefix job.Name jobNameBase then
      filterLoop jobNameBase (ret ++ [job]) rest
    else
      filterLoop jobNameBase ret rest

/-- Source `RealOperator.filterJobsByRunningAndNameBase`: the named result
starts as the nil slice. -/
def filterJobsByRunningAndNameBase (jobs : List Job) (jobNameBase : String) : List Job :=
  filterLoop jobNameBase [] jobs

/-- The selection as the specification words it: RUNNING and name starts with
the prefix. -/
def isRunningWithBase (P : String) (j : Job) : Prop :=
  j.Status = "RUNNING" ∧ P.toList <+: j.Name.toList

instance (P : String) (j : Job) : Decidable (isRunningWithBase P j) := by
  unfold isRunningWithBase; infer_instance


/-- Source `UpdateJob`: the configuration of one update. -/
structure UpdateJob where
  JobNameBase : String
  LocalFilename : String
  RemoteFilename : String
  APIToken : String
  EntryClass : String
  Parallelism : Int
  ProgramArgs : String
  SavepointDir : String
  AllowNonRestoredState : Bool
  deriving DecidableEq, Repr

/-- The `Deploy` record (declared in `deploy.go`): the fields `Update` fills. -/
structure Deploy where
  LocalFilename : String
  RemoteFilename : String
  APIToken : String
  EntryClass : String
  Parallelism : Int
  ProgramArgs : String
  SavepointPath : String
  AllowNonRestoredState : Bool
  deriving DecidableEq, Repr

/-- One observable step of a run: a call on the control plane, with what a
status check answered, or the call of the Deploy step. -/
inductive Event where
  | RetrieveJobs
  | CreateSavepoint (jobID savepointDir : String)
  | MonitorSavepointCreation (jobID requestID : String)
      (res : MonitorSavepointCreationResponse) (err : Option String)
  | Deploy (d : Deploy)
  deriving DecidableEq, Repr

/-- The surroundings of one run. `RetrieveJobs` and `CreateSavepoint` are the
answers of the control plane; `MonitorSavepointCreation k` is its answer to
the status check number `k` (counted from 0); `delays` is the clock seen
through the backoff policy: how many times `NextBackOff` hands out a delay
before it reports `Stop`; `Deploy` is the result of `RealOperator.Deploy`,
whose source file is not part of this development. -/
structure World where
  RetrieveJobs : List Job × Option String
  CreateSavepoint : String → String → CreateSavepointResponse × Option String
  MonitorSavepointCreation : Nat → String → String →
    MonitorSavepointCreationResponse × Option String
  delays : Nat
  Deploy : Deploy → Option String

/-- The loop of `backoff.Retry` (library `cenkalti/backoff`): run the operation;
on `nil` return `nil`; on an error ask `NextBackOff`, return the error when it
says `Stop`, otherwise sleep and run the operation again. The first argument
is the number of delays `NextBackOff` still hands out, `k` numbers the
attempt, `s` is the state the operation closes over. The operations of this
package never return a `PermanentError`. -/
def Retry {σ : Type} (op : Nat → σ → σ × Option String) : Nat → Nat → σ → σ × Option String
  | 0, k, s => op k s
  | d + 1, k, s =>
    match op k s with
    | (s1, none) => (s1, none)
    | (s1, some _) => Retry op d (k + 1) s1

/-- A time budget in whole seconds as this development covers it. The source
parameter `maxElapsedTime` is a Go `int`; covered are the budgets `n` with
`0 < n` and `n * 10^9 < 2^63`, that is `1 ≤ n ≤ 9223372036`: zero switches the
deadline of the backoff policy off, and from 9223372037 on the int64 product
`time.Duration(n) * time.Second` wraps, so that the deadline and the printed
seconds are those of the wrapped duration. Those runs are not modelled. -/
structure Budget where
  seconds : Nat
  pos : 0 < seconds
  fits : seconds * 1000000000 < 2 ^ 63

/-- The significant digits of a whole number: its decimal digits without the
trailing zeros. -/
def significantDigits (n : Nat) : List Char :=
  ((Nat.toDigits 10 n).reverse.dropWhile (fun c => c == '0')).reverse

/-- What `%v` prints for `b.MaxElapsedTime.Seconds()`, the float64 of value
`n`: Go formats it by `%g` with the shortest digits, which is plain decimal
while the decimal exponent is below 6 and `d.ddde+XX` from there on. -/
def formatSeconds (n : Nat) : String :=
  if n < 1000000 then toString n
  else
    let exp := (Nat.toDigits 10 n).length - 1
    match significantDigits n with
    | [] => "0"
    | [d] => String.mk [d] ++ "e+" ++ (if exp < 10 then "0" else "") ++ toString exp
    | d :: ds => String.mk (d :: '.' :: ds) ++ "e+" ++ (if exp < 10 then "0" else "")
        ++ toString exp

/-- What `monitorSavepointCreation` and the callers of it see of one run. -/
structure MonitorResult where
  trace : List Event
  res : MonitorSavepointCreationResponse
  err : Option String
  deriving DecidableEq, Repr

/-- The closure `op` of `monitorSavepointCreation`: one status check. The
state is the variable `tmp` the closure assigns, with the events so far. -/
def statusCheck (w : World) (jobID requestID : String) (k : Nat)
    (s : MonitorSavepointCreationResponse × List Event) :
    (MonitorSavepointCreationResponse × List Event) × Option String :=
  let (res, err) := w.MonitorSavepointCreation k jobID requestID
  let s1 := (res, s.2 ++ [Event.MonitorSavepointCreation jobID requestID res err])
  match err with
  | some e => (s1, some e)
  | none =>
    if res.Status.Id = "COMPLETED" then (s1, none)
    else if res.Status.Id = "IN_PROGRESS" then
      (s1, some ("savepoint creation for job \"" ++ jobID ++ "\" is still pending"))
    else
      (s1, some ("savepoint creation for job \"" ++ jobID
        ++ "\" returned an unknown status \"\x7b" ++ res.Status.Id ++ "\x7d\""))

/-- Source `RealOperator.monitorSavepointCreation`. -/
def monitorSavepointCreation (w : World) (jobID requestID : String)
    (maxElapsedTime : Budget) : MonitorResult :=
  let tmp := MonitorSavepointCreationResponse.zero
  match Retry (statusCheck w jobID requestID) w.delays 0 (tmp, []) with
  | ((_, trace), some _) =>
    { trace := trace, res := MonitorSavepointCreationResponse.zero,
      err := some ("failed to create savepoint for job \"" ++ jobID ++ "\" within "
        ++ formatSeconds maxElapsedTime.seconds ++ " seconds") }
  | ((tmp, trace), none) => { trace := trace, res := tmp, err := none }

/-- What a caller sees of one run of `Update`. -/
structure UpdateResult where
  trace : List Event
  err : Option String
  deriving DecidableEq, Repr

/-- The budget of 60 seconds `Update` waits for the savepoint. -/
def sixtySeconds : Budget := ⟨60, by decide, by decide⟩

/-- Source `RealOperator.Update`. -/
def Update (w : World) (u : UpdateJob) : UpdateResult :=
  if u.JobNameBase = "" then
    { trace := [], err := some "unspecified argument 'JobNameBase'" }
  else
    match w.RetrieveJobs with
    | (_, some e) => { trace := [Event.RetrieveJobs], err := some ("retrieving jobs failed: " ++ e) }
    | (jobs, none) =>
      let runningJobs := filterJobsByRunningAndNameBase jobs u.JobNameBase
      let deploy : Deploy :=
        { LocalFilename := u.LocalFilename
          RemoteFilename := u.RemoteFilename
          APIToken := u.APIToken
          EntryClass := u.EntryClass
          Parallelism := u.Parallelism
          ProgramArgs := u.ProgramArgs
          SavepointPath := ""
          AllowNonRestoredState := u.AllowNonRestoredState }
      match runningJobs with
      | [] =>
        { trace := [Event.RetrieveJobs],
          err := some ("no instance running for job name base \"" ++ u.JobNameBase
            ++ "\". Aborting update") }
      | [job] =>
        let t1 := [Event.RetrieveJobs, Event.CreateSavepoint job.ID u.SavepointDir]
        match w.CreateSavepoint job.ID u.SavepointDir with
        | (_, some e) =>
          { trace := t1,
            err := some ("failed to create savepoint for job " ++ job.ID ++ " due to error: " ++ e) }
        | (savepointResponse, none) =>
          let m := monitorSavepointCreation w job.ID savepointResponse.RequestID sixtySeconds
          match m.err with
          | some e => { trace := t1 ++ m.trace, err := some e }
          | none =>
            let deploy := { deploy with SavepointPath := m.res.Operation.Location }
            if deploy.SavepointPath = "" then
              { trace := t1 ++ m.trace, err := some "Savepoint creation failed" }
            else
              { trace := t1 ++ m.trace ++ [Event.Deploy deploy], err := w.Deploy deploy }
      | _ :: _ :: _ =>
        { trace := [Event.RetrieveJobs],
          err := some ("job name with base \"" ++ u.JobNameBase ++ "\" has "
            ++ toString runningJobs.length ++ " instances running. Aborting update") }

/-- The jobs a specification reader selects: those RUNNING whose name starts
with the prefix, in the order of the list. -/
def selectedJobs (jobs : List Job) (P : String) : List Job :=
  jobs.filter (fun j => decide (isRunningWithBase P j))

/-- The `Deploy` records a trace hands to the Deploy step, oldest first. -/
def deployCalls : List Event → List Deploy
  | [] => []
  | Event.Deploy d :: rest => d :: deployCalls rest
  | _ :: rest => deployCalls rest

/-- The status checks of a trace: how many `MonitorSavepointCreation` calls it
holds. -/
def statusChecks : List Event → Nat
  | [] => 0
  | Event.MonitorSavepointCreation _ _ _ _ :: rest => statusChecks rest + 1
  | _ :: rest => statusChecks rest

/-- The event of status check number `k`. -/
def checkEvent (w : World) (jobID requestID : String) (k : Nat) : Event :=
  Event.MonitorSavepointCreation jobID requestID
    (w.MonitorSavepointCreation k jobID requestID).1
    (w.MonitorSavepointCreation k jobID requestID).2

/-- The events of the `n` status checks from number `k` on. -/
def checkEvents (w : World) (jobID requestID : String) : Nat → Nat → List Event
  | _, 0 => []
  | k, n + 1 => checkEvent w jobID requestID k :: checkEvents w jobID requestID (k + 1) n

/-- Status check number `k` fails: it returns an error, or a status other than
COMPLETED (IN_PROGRESS or an unrecognised one). -/
def checkFails (w : World) (jobID requestID : String) (k : Nat) : Prop :=
  (w.MonitorSavepointCreation k jobID requestID).2 ≠ none
    ∨ (w.MonitorSavepointCreation k jobID requestID).1.Status.Id ≠ "COMPLETED"

/-- Status check number `k` returns no error and the status COMPLETED. -/
def checkCompletes (w : World) (jobID requestID : String) (k : Nat) : Prop :=
  (w.MonitorSavepointCreation k jobID requestID).2 = none
    ∧ (w.MonitorSavepointCreation k jobID requestID).1.Status.Id = "COMPLETED"

instance (w : World) (j r : String) (k : Nat) : Decidable (checkFails w j r k) := by
  unfold checkFails; infer_instance

instance (w : World) (j r : String) (k : Nat) : Decidable (checkCompletes w j r k) := by
  unfold checkCompletes; infer_instance

/-- The timeout error text for job `jobID` with a budget of `n` seconds written
in decimal. -/
def timeoutText (jobID : String) (n : Nat) : String :=
  "failed to create savepoint for job \"" ++ jobID ++ "\" within " ++ toString n ++ " seconds"

/-- A call of the Deploy step on the control plane. -/
inductive DeployCall where
  | UploadJar (filename : String)
  | RunJar (jarID entryClass : String) (parallelism : Int)
      (programArgs savepointPath : String) (allowNonRestoredState : Bool)
  deriving DecidableEq, Repr

/-- The collaborators of the Deploy step: the artifact source, the upload and
run operations of the control plane, and the text of the configuration error
for a spec with both artifact references set. -/
structure DeployWorld where
  ReadArtifact : String → Option String
  UploadJar : String → String × Option String
  RunJar : String → String → Int → String → String → Bool → Option String
  bothSetText : String

/-- What a caller sees of one run of the Deploy step. -/
structure DeployResult where
  calls : List DeployCall
  err : Option String
  deriving DecidableEq, Repr

/-- Modelled from the spec: `extractJarIDFromFilename` of `deploy.go`, which is
absent from the sources. The jar ID is the trailing path segment after the
last separator. -/
def extractJarIDFromFilename (filename : String) : String :=
  ((filename.splitOn "/").getLast?).getD ""

/-- Modelled from the spec: `RealOperator.Deploy` of `deploy.go`, which is
absent from the sources (section 4.4 of the specification, error text of
`deploy_test.go`). Exactly one of the local and remote artifact references
must be present, or the step fails with a configuration error before any call;
a local artifact is read and uploaded and the server-side filename identifies
it; the jar ID is derived and the run operation invoked; failures of upload
and run are propagated unchanged. -/
def DeployStep (c : DeployWorld) (d : Deploy) : DeployResult :=
  let run (identifier : String) (before : List DeployCall) : DeployResult :=
    let jarID := extractJarIDFromFilename identifier
    { calls := before ++ [DeployCall.RunJar jarID d.EntryClass d.Parallelism d.ProgramArgs
        d.SavepointPath d.AllowNonRestoredState]
      err := c.RunJar jarID d.EntryClass d.Parallelism d.ProgramArgs d.SavepointPath
        d.AllowNonRestoredState }
  if d.RemoteFilename = "" ∧ d.LocalFilename = "" then
    { calls := []
      err := some "both properties 'RemoteFilename' and 'LocalFilename' are unspecified" }
  else if d.RemoteFilename ≠ "" ∧ d.LocalFilename ≠ "" then
    { calls := [], err := some c.bothSetText }
  else if d.LocalFilename ≠ "" then
    match c.ReadArtifact d.LocalFilename with
    | some e => { calls := [], err := some e }
    | none =>
      match c.UploadJar d.LocalFilename with
      | (_, some e) => { calls := [DeployCall.UploadJar d.LocalFilename], err := some e }
      | (remote, none) => run remote [DeployCall.UploadJar d.LocalFilename]
  else run d.RemoteFilename []

/-- The `Deploy` record `Update` builds from a request and a savepoint path. -/
def deployOf (u : UpdateJob) (savepointPath : String) : Deploy :=
  { LocalFilename := u.LocalFilename
    RemoteFilename := u.RemoteFilename
    APIToken := u.APIToken
    EntryClass := u.EntryClass
    Parallelism := u.Parallelism
    ProgramArgs := u.ProgramArgs
    SavepointPath := savepointPath
    AllowNonRestoredState := u.AllowNonRestoredState }

/-! ## Concrete runs -/

/-- A status response with the given phase and location. -/
def status (id location : String) : MonitorSavepointCreationResponse :=
  { Status := { Id := id }, Operation := { Location := location, FailureCause := "" } }

/-- The control plane of the update tests: one job `Job-A`, a savepoint
request `request-id`, two pending status checks and then completion at the
given location, a clock that allows five delays, a Deploy step that succeeds. -/
def testWorld (location : String) : World :=
  { RetrieveJobs := ([{ ID := "Job-A", Name := "WordCountStateful v1.0", Status := "RUNNING" }], none)
    CreateSavepoint := fun _ _ => ({ RequestID := "request-id" }, none)
    MonitorSavepointCreation := fun k _ _ =>
      if k < 2 then (status "IN_PROGRESS" "", none) else (status "COMPLETED" location, none)
    delays := 5
    Deploy := fun _ => none }

/-- The request of the update tests. -/
def testRequest : UpdateJob :=
  { JobNameBase := "WordCountStateful"
    LocalFilename := "../testdata/sample.jar"
    RemoteFilename := ""
    APIToken := ""
    EntryClass := ""
    Parallelism := 0
    ProgramArgs := ""
    SavepointDir := "/data/flink"
    AllowNonRestoredState := false }

/-- A control plane whose status checks never complete: the first returns an
error, the later ones report a failed phase; the clock allows two delays. -/
def stuckWorld : World :=
  { testWorld "" with
    MonitorSavepointCreation := fun k _ _ =>
      if k = 0 then (MonitorSavepointCreationResponse.zero, some "failed")
      else (status "FAILED" "/data/flink/partial", none)
    delays := 2 }

/-- Collaborators of the Deploy step that accept everything. -/
def testDeployWorld : DeployWorld :=
  { ReadArtifact := fun _ => none
    UploadJar := fun _ => ("/data/flink/sample.jar", none)
    RunJar := fun _ _ _ _ _ _ => none
    bothSetText := "both properties 'RemoteFilename' and 'LocalFilename' are specified" }

/-- The test control plane with the Deploy step of the specification. -/
def specDeployWorld : World :=
  { testWorld "s3://cp/1" with Deploy := fun d => (DeployStep testDeployWorld d).err }

/-- A request that names a job but no artifact. -/
def noArtifactRequest : UpdateJob :=
  { testRequest with LocalFilename := "" }

/-- A budget of one second, as the monitoring test passes it. -/
def oneSecond : Budget := ⟨1, by decide, by decide⟩

/-- A budget of a million seconds. -/
def millionSeconds : Budget := ⟨1000000, by decide, by decide⟩

/-- Two running jobs of one base name. -/
def twoJobsWorld : World :=
  { testWorld "" with
    RetrieveJobs := ([{ ID := "Job-A", Name := "WordCountStateful v1.0", Status := "RUNNING" },
      { ID := "Job-B", Name := "WordCountStateful v1.1", Status := "RUNNING" }], none) }

/-- An HTTP client that accepts every request. -/
def testClient : FlinkRestClient :=
  { constructURL := fun path => "http://localhost/" ++ path
    Post := fun _ _ _ => ({ StatusCode := 202, Body := "", ReadError := none }, none)
    Unmarshal := fun _ => some { RequestID := "request-id" } }

/-! ## The job filter -/

theorem filterLoop_eq (P : String) (jobs ret : List Job) :
    filterLoop P ret jobs
      = ret ++ jobs.filter (fun j => j.Status == "RUNNING" && hasPrefix j.Name P) := by
  induction jobs generalizing ret with
  | nil => simp [filterLoop]
  | cons j rest ih =>
    unfold filterLoop
    cases h : (j.Status == "RUNNING" && hasPrefix j.Name P) <;>
      simp [h, ih, List.filter_cons]

theorem keeps_iff (P : String) (j : Job) :
    (j.Status == "RUNNING" && hasPrefix j.Name P) = decide (isRunningWithBase P j) := by
  rw [Bool.eq_iff_iff]
  simp [isRunningWithBase, hasPrefix]


theorem filter_eq_selected (jobs : List Job) (P : String) :
    filterJobsByRunningAndNameBase jobs P = selectedJobs jobs P := by
  unfold filterJobsByRunningAndNameBase selectedJobs
  rw [filterLoop_eq, List.nil_append]
  congr 1
  funext j
  exact keeps_iff P j

/-! ## The status poll -/

theorem checkFails_iff (w : World) (j r : String) (k : Nat) :
    checkFails w j r k ↔ ¬ checkCompletes w j r k := by
  unfold checkFails checkCompletes
  constructor
  · rintro (h | h) ⟨h1, h2⟩
    · exact h h1
    · exact h h2
  · intro h
    by_cases h1 : (w.MonitorSavepointCreation k j r).2 = none
    · exact Or.inr (fun h2 => h ⟨h1, h2⟩)
    · exact Or.inl h1

theorem statusCheck_fst (w : World) (j r : String) (k : Nat)
    (s : MonitorSavepointCreationResponse × List Event) :
    (statusCheck w j r k s).1
      = ((w.MonitorSavepointCreation k j r).1, s.2 ++ [checkEvent w j r k]) := by
  unfold statusCheck checkEvent
  rcases hm : w.MonitorSavepointCreation k j r with ⟨res, err⟩
  cases err with
  | some e => simp
  | none =>
    by_cases h1 : res.Status.Id = "COMPLETED"
    · simp [h1]
    · by_cases h2 : res.Status.Id = "IN_PROGRESS" <;> simp [h1, h2]

theorem statusCheck_snd (w : World) (j r : String) (k : Nat)
    (s : MonitorSavepointCreationResponse × List Event) :
    (statusCheck w j r k s).2 = none ↔ checkCompletes w j r k := by
  unfold statusCheck checkCompletes
  rcases hm : w.MonitorSavepointCreation k j r with ⟨res, err⟩
  cases err with
  | some e => simp
  | none =>
    by_cases h1 : res.Status.Id = "COMPLETED"
    · simp [h1]
    · by_cases h2 : res.Status.Id = "IN_PROGRESS" <;> simp [h1, h2]

theorem checkEvents_succ (w : World) (j r : String) (k n : Nat) :
    checkEvents w j r k (n + 1) = checkEvents w j r k n ++ [checkEvent w j r (k + n)] := by
  induction n generalizing k with
  | zero => simp [checkEvents]
  | succ n ih =>
    rw [checkEvents, ih (k + 1), checkEvents]
    simp [Nat.add_assoc, Nat.add_comm 1 n]

/-- Every run of the retry loop over the status check: it makes `n + 1` checks
for some `n` within the delays the clock allows, the first `n` fail, the state
holds the answer of the last check and the events of all of them, and either
the last check completes, or it fails and the delays are used up. -/
theorem Retry_statusCheck (w : World) (j r : String) (d k : Nat)
    (s : MonitorSavepointCreationResponse × List Event) :
    ∃ n, n ≤ d ∧ (∀ i, i < n → checkFails w j r (k + i))
      ∧ (Retry (statusCheck w j r) d k s).1
          = ((w.MonitorSavepointCreation (k + n) j r).1, s.2 ++ checkEvents w j r k (n + 1))
      ∧ (((Retry (statusCheck w j r) d k s).2 = none ∧ checkCompletes w j r (k + n))
          ∨ ((Retry (statusCheck w j r) d k s).2 ≠ none ∧ checkFails w j r (k + n) ∧ n = d)) := by
  induction d generalizing k s with
  | zero =>
    refine ⟨0, Nat.le_refl 0, fun i hi => absurd hi (Nat.not_lt_zero i), ?_, ?_⟩
    · simp [Retry, statusCheck_fst, checkEvents]
    · by_cases hc : checkCompletes w j r k
      · exact Or.inl ⟨by simpa [Retry] using (statusCheck_snd w j r k s).2 hc, by simpa using hc⟩
      · refine Or.inr ⟨?_, ?_, rfl⟩
        · intro h
          exact hc ((statusCheck_snd w j r k s).1 (by simpa [Retry] using h))
        · simpa using (checkFails_iff w j r k).2 hc
  | succ d ih =>
    have hfst := statusCheck_fst w j r k s
    have hsnd := statusCheck_snd w j r k s
    rcases hop : statusCheck w j r k s with ⟨s1, err⟩
    rw [hop] at hfst hsnd
    cases err with
    | none =>
      have hc : checkCompletes w j r k := hsnd.1 rfl
      refine ⟨0, Nat.zero_le _, fun i hi => absurd hi (Nat.not_lt_zero i), ?_, ?_⟩
      · simp only [Retry, hop]
        simpa [checkEvents] using hfst
      · exact Or.inl ⟨by simp [Retry, hop], by simpa using hc⟩
    | some e =>
      have hf : checkFails w j r k := by
        rw [checkFails_iff]
        intro hc
        have := hsnd.2 hc
        simp at this
      obtain ⟨n, hn, hfail, hstate, hend⟩ := ih (k + 1) s1
      have hR : Retry (statusCheck w j r) (d + 1) k s = Retry (statusCheck w j r) d (k + 1) s1 := by
        simp [Retry, hop]
      have hidx : k + 1 + n = k + (n + 1) := by omega
      refine ⟨n + 1, Nat.succ_le_succ hn, ?_, ?_, ?_⟩
      · intro i hi
        cases i with
        | zero => simpa using hf
        | succ i =>
          have := hfail i (by omega)
          have hi2 : k + 1 + i = k + (i + 1) := by omega
          rwa [hi2] at this
      · rw [hR, hstate, hidx]
        have hs1 : s1.2 = s.2 ++ [checkEvent w j r k] := by
          have := congrArg Prod.snd hfst
          simpa using this
        rw [hs1, checkEvents.eq_2 w j r k (n + 1)]
        simp
      · rw [hR]
        rcases hend with ⟨h1, h2⟩ | ⟨h1, h2, h3⟩
        · exact Or.inl ⟨h1, by rwa [hidx] at h2⟩
        · exact Or.inr ⟨h1, by rwa [hidx] at h2, by omega⟩

/-- Every run of `monitorSavepointCreation` makes `n + 1` status checks for
some `n` within the delays the clock allows, the first `n` failing; either the
last check completes and its answer is returned without error, or it fails
with the delays used up and the zero response is returned with the timeout
error. -/
theorem monitor_cases (w : World) (j r : String) (b : Budget) :
    ∃ n, n ≤ w.delays ∧ (∀ i, i < n → checkFails w j r i)
      ∧ (monitorSavepointCreation w j r b).trace = checkEvents w j r 0 (n + 1)
      ∧ (((monitorSavepointCreation w j r b).err = none
            ∧ (monitorSavepointCreation w j r b).res = (w.MonitorSavepointCreation n j r).1
            ∧ checkCompletes w j r n)
          ∨ ((monitorSavepointCreation w j r b).err
                = some ("failed to create savepoint for job \"" ++ j ++ "\" within "
                    ++ formatSeconds b.seconds ++ " seconds")
            ∧ (monitorSavepointCreation w j r b).res = MonitorSavepointCreationResponse.zero
            ∧ checkFails w j r n ∧ n = w.delays)) := by
  obtain ⟨n, hn, hfail, hstate, hend⟩ :=
    Retry_statusCheck w j r w.delays 0 (MonitorSavepointCreationResponse.zero, [])
  simp only [Nat.zero_add, List.nil_append] at hfail hstate hend
  refine ⟨n, hn, hfail, ?_⟩
  rcases hR : Retry (statusCheck w j r) w.delays 0 (MonitorSavepointCreationResponse.zero, [])
    with ⟨⟨tmp, trace⟩, err⟩
  rw [hR] at hstate hend
  simp only [Prod.mk.injEq] at hstate
  obtain ⟨htmp, htrace⟩ := hstate
  cases err with
  | none =>
    have hM : monitorSavepointCreation w j r b = { trace := trace, res := tmp, err := none } := by
      simp only [monitorSavepointCreation, hR]
    rw [hM]
    rcases hend with ⟨_, hc⟩ | ⟨h1, _, _⟩
    · exact ⟨htrace, Or.inl ⟨rfl, htmp, hc⟩⟩
    · exact absurd rfl h1
  | some e =>
    have hM : monitorSavepointCreation w j r b
        = { trace := trace, res := MonitorSavepointCreationResponse.zero,
            err := some ("failed to create savepoint for job \"" ++ j ++ "\" within "
              ++ formatSeconds b.seconds ++ " seconds") } := by
      simp only [monitorSavepointCreation, hR]
    rw [hM]
    rcases hend with ⟨h1, _⟩ | ⟨_, hf, hd⟩
    · exact absurd h1 (by simp)
    · exact ⟨htrace, Or.inr ⟨rfl, rfl, hf, hd⟩⟩

theorem deployCalls_append (t1 t2 : List Event) :
    deployCalls (t1 ++ t2) = deployCalls t1 ++ deployCalls t2 := by
  induction t1 with
  | nil => rfl
  | cons e rest ih => cases e <;> simp [deployCalls, ih]

theorem deployCalls_checkEvents (w : World) (j r : String) (k n : Nat) :
    deployCalls (checkEvents w j r k n) = [] := by
  induction n generalizing k with
  | zero => rfl
  | succ n ih => simp [checkEvents, checkEvent, deployCalls, ih]

theorem statusChecks_checkEvents (w : World) (j r : String) (k n : Nat) :
    statusChecks (checkEvents w j r k n) = n := by
  induction n generalizing k with
  | zero => rfl
  | succ n ih => simp [checkEvents, checkEvent, statusChecks, ih]

theorem deployCalls_monitor (w : World) (j r : String) (b : Budget) :
    deployCalls (monitorSavepointCreation w j r b).trace = [] := by
  obtain ⟨n, _, _, ht, _⟩ := monitor_cases w j r b
  rw [ht]
  exact deployCalls_checkEvents w j r 0 (n + 1)

/-- A monitoring that ends without error ends on a status check that answered
COMPLETED without error, and returns the answer of that check. -/
theorem monitor_ends_completed (w : World) (j r : String) (b : Budget)
    (h : (monitorSavepointCreation w j r b).err = none) :
    (monitorSavepointCreation w j r b).res.Status.Id = "COMPLETED"
      ∧ ∃ before, deployCalls before = []
          ∧ (monitorSavepointCreation w j r b).trace
              = before ++ [Event.MonitorSavepointCreation j r
                  (monitorSavepointCreation w j r b).res none] := by
  obtain ⟨n, _, _, ht, hend⟩ := monitor_cases w j r b
  rcases hend with ⟨_, hres, hc⟩ | ⟨herr, _⟩
  · refine ⟨by rw [hres]; exact hc.2, checkEvents w j r 0 n, deployCalls_checkEvents w j r 0 n, ?_⟩
    rw [ht, checkEvents_succ, Nat.zero_add]
    unfold checkEvent
    rw [hres, hc.1]
  · rw [h] at herr
    exact absurd herr (by simp)

/-! ## The paths of `Update` -/

theorem Update_noBase (w : World) (u : UpdateJob) (h : u.JobNameBase = "") :
    Update w u = { trace := [], err := some "unspecified argument 'JobNameBase'" } := by
  simp [Update, h]

theorem Update_retrieveFails (w : World) (u : UpdateJob) (jobs : List Job) (e : String)
    (h : u.JobNameBase ≠ "") (hj : w.RetrieveJobs = (jobs, some e)) :
    Update w u
      = { trace := [Event.RetrieveJobs], err := some ("retrieving jobs failed: " ++ e) } := by
  simp [Update, h, hj]

theorem Update_noJob (w : World) (u : UpdateJob) (jobs : List Job)
    (h : u.JobNameBase ≠ "") (hj : w.RetrieveJobs = (jobs, none))
    (hs : selectedJobs jobs u.JobNameBase = []) :
    Update w u
      = { trace := [Event.RetrieveJobs],
          err := some ("no instance running for job name base \"" ++ u.JobNameBase
            ++ "\". Aborting update") } := by
  rw [← filter_eq_selected] at hs
  simp [Update, h, hj, hs]

theorem Update_manyJobs (w : World) (u : UpdateJob) (jobs : List Job) (a b : Job)
    (rest : List Job)
    (h : u.JobNameBase ≠ "") (hj : w.RetrieveJobs = (jobs, none))
    (hs : selectedJobs jobs u.JobNameBase = a :: b :: rest) :
    Update w u
      = { trace := [Event.RetrieveJobs],
          err := some ("job name with base \"" ++ u.JobNameBase ++ "\" has "
            ++ toString (selectedJobs jobs u.JobNameBase).length
            ++ " instances running. Aborting update") } := by
  rw [← filter_eq_selected] at hs ⊢
  simp [Update, h, hj, hs]

theorem Update_savepointFails (w : World) (u : UpdateJob) (jobs : List Job) (job : Job)
    (sp : CreateSavepointResponse) (e : String)
    (h : u.JobNameBase ≠ "") (hj : w.RetrieveJobs = (jobs, none))
    (hs : selectedJobs jobs u.JobNameBase = [job])
    (hc : w.CreateSavepoint job.ID u.SavepointDir = (sp, some e)) :
    Update w u
      = { trace := [Event.RetrieveJobs, Event.CreateSavepoint job.ID u.SavepointDir],
          err := some ("failed to create savepoint for job " ++ job.ID
            ++ " due to error: " ++ e) } := by
  rw [← filter_eq_selected] at hs
  simp [Update, h, hj, hs, hc]

theorem Update_monitorFails (w : World) (u : UpdateJob) (jobs : List Job) (job : Job)
    (sp : CreateSavepointResponse) (e : String)
    (h : u.JobNameBase ≠ "") (hj : w.RetrieveJobs = (jobs, none))
    (hs : selectedJobs jobs u.JobNameBase = [job])
    (hc : w.CreateSavepoint job.ID u.SavepointDir = (sp, none))
    (hm : (monitorSavepointCreation w job.ID sp.RequestID sixtySeconds).err = some e) :
    Update w u
      = { trace := [Event.RetrieveJobs, Event.CreateSavepoint job.ID u.SavepointDir]
            ++ (monitorSavepointCreation w job.ID sp.RequestID sixtySeconds).trace,
          err := some e } := by
  rw [← filter_eq_selected] at hs
  simp [Update, h, hj, hs, hc, hm]

theorem Update_noLocation (w : World) (u : UpdateJob) (jobs : List Job) (job : Job)
    (sp : CreateSavepointResponse)
    (h : u.JobNameBase ≠ "") (hj : w.RetrieveJobs = (jobs, none))
    (hs : selectedJobs jobs u.JobNameBase = [job])
    (hc : w.CreateSavepoint job.ID u.SavepointDir = (sp, none))
    (hm : (monitorSavepointCreation w job.ID sp.RequestID sixtySeconds).err = none)
    (hl : (monitorSavepointCreation w job.ID sp.RequestID sixtySeconds).res.Operation.Location
      = "") :
    Update w u
      = { trace := [Event.RetrieveJobs, Event.CreateSavepoint job.ID u.SavepointDir]
            ++ (monitorSavepointCreation w job.ID sp.RequestID sixtySeconds).trace,
          err := some "Savepoint creation failed" } := by
  rw [← filter_eq_selected] at hs
  simp [Update, h, hj, hs, hc, hm, hl]

theorem Update_deploys (w : World) (u : UpdateJob) (jobs : List Job) (job : Job)
    (sp : CreateSavepointResponse)
    (h : u.JobNameBase ≠ "") (hj : w.RetrieveJobs = (jobs, none))
    (hs : selectedJobs jobs u.JobNameBase = [job])
    (hc : w.CreateSavepoint job.ID u.SavepointDir = (sp, none))
    (hm : (monitorSavepointCreation w job.ID sp.RequestID sixtySeconds).err = none)
    (hl : (monitorSavepointCreation w job.ID sp.RequestID sixtySeconds).res.Operation.Location
      ≠ "") :
    Update w u
      = { trace := [Event.RetrieveJobs, Event.CreateSavepoint job.ID u.SavepointDir]
            ++ (monitorSavepointCreation w job.ID sp.RequestID sixtySeconds).trace
            ++ [Event.Deploy (deployOf u
                (monitorSavepointCreation w job.ID sp.RequestID sixtySeconds).res.Operation.Location)],
          err := w.Deploy (deployOf u
            (monitorSavepointCreation w job.ID sp.RequestID sixtySeconds).res.Operation.Location) } := by
  rw [← filter_eq_selected] at hs
  simp [Update, h, hj, hs, hc, hm, hl, deployOf]

theorem mem_deployCalls (t : List Event) (d : Deploy) :
    Event.Deploy d ∈ t ↔ d ∈ deployCalls t := by
  induction t with
  | nil => simp [deployCalls]
  | cons e rest ih => cases e <;> simp [deployCalls, ih]

/-- A run of `Update` either stops at a guard, with an error and without a
call of Deploy, or passes every guard and ends with the call of Deploy. -/
theorem Update_guard_or_deploy (w : World) (u : UpdateJob) :
    (deployCalls (Update w u).trace = [] ∧ (Update w u).err ≠ none
        ∧ ((Update w u).trace = [] ↔ u.JobNameBase = "")
        ∧ (u.JobNameBase ≠ "" → (Update w u).trace.head? = some Event.RetrieveJobs))
      ∨ (∃ jobs job sp, u.JobNameBase ≠ "" ∧ w.RetrieveJobs = (jobs, none)
          ∧ selectedJobs jobs u.JobNameBase = [job]
          ∧ w.CreateSavepoint job.ID u.SavepointDir = (sp, none)
          ∧ (monitorSavepointCreation w job.ID sp.RequestID sixtySeconds).err = none
          ∧ (monitorSavepointCreation w job.ID sp.RequestID sixtySeconds).res.Operation.Location
              ≠ ""
          ∧ Update w u
              = { trace := [Event.RetrieveJobs, Event.CreateSavepoint job.ID u.SavepointDir]
                    ++ (monitorSavepointCreation w job.ID sp.RequestID sixtySeconds).trace
                    ++ [Event.Deploy (deployOf u (monitorSavepointCreation w job.ID
                          sp.RequestID sixtySeconds).res.Operation.Location)],
                  err := w.Deploy (deployOf u (monitorSavepointCreation w job.ID
                          sp.RequestID sixtySeconds).res.Operation.Location) }) := by
  by_cases hb : u.JobNameBase = ""
  · left; rw [Update_noBase w u hb]; simp [deployCalls, hb]
  rcases hj : w.RetrieveJobs with ⟨jobs, _ | e⟩
  swap
  · left; rw [Update_retrieveFails w u jobs e hb hj]; simp [deployCalls, hb]
  rcases hs : selectedJobs jobs u.JobNameBase with _ | ⟨job, _ | ⟨b, rest⟩⟩
  · left; rw [Update_noJob w u jobs hb hj hs]; simp [deployCalls, hb]
  swap
  · left; rw [Update_manyJobs w u jobs job b rest hb hj hs]; simp [deployCalls, hb]
  rcases hc : w.CreateSavepoint job.ID u.SavepointDir with ⟨sp, _ | e⟩
  swap
  · left; rw [Update_savepointFails w u jobs job sp e hb hj hs hc]; simp [deployCalls, hb]
  rcases hm : (monitorSavepointCreation w job.ID sp.RequestID sixtySeconds).err with _ | e
  swap
  · left; rw [Update_monitorFails w u jobs job sp e hb hj hs hc hm]
    simp [deployCalls, deployCalls_append, deployCalls_monitor, hb]
  by_cases hl :
      (monitorSavepointCreation w job.ID sp.RequestID sixtySeconds).res.Operation.Location = ""
  · left; rw [Update_noLocation w u jobs job sp hb hj hs hc hm hl]
    simp [deployCalls, deployCalls_append, deployCalls_monitor, hb]
  · right
    exact ⟨jobs, job, sp, hb, rfl, hs, hc, hm, hl,
      Update_deploys w u jobs job sp hb hj hs hc hm hl⟩

/-! ## The claims -/

/-- C1: for every job list `L` and prefix `P`, `filterJobsByRunningAndNameBase`
returns exactly the jobs of `L` whose status is RUNNING and whose name starts
with `P`, in the order of `L`: it is the filter of `L` by that test, a sublist
of `L` with exactly those members; the empty list gives the empty result, the
result is empty exactly when no job passes, and the empty prefix keeps all
RUNNING jobs. -/
theorem C1_filter_selects_running_with_base (L : List Job) (P : String) :
    filterJobsByRunningAndNameBase L P
        = L.filter (fun j => decide (j.Status = "RUNNING" ∧ P.toList <+: j.Name.toList))
      ∧ (filterJobsByRunningAndNameBase L P).Sublist L
      ∧ (∀ j, j ∈ filterJobsByRunningAndNameBase L P
          ↔ (j ∈ L ∧ j.Status = "RUNNING" ∧ P.toList <+: j.Name.toList))
      ∧ filterJobsByRunningAndNameBase [] P = []
      ∧ (filterJobsByRunningAndNameBase L P = []
          ↔ ∀ j, j ∈ L → ¬ (j.Status = "RUNNING" ∧ P.toList <+: j.Name.toList))
      ∧ filterJobsByRunningAndNameBase L ""
          = L.filter (fun j => decide (j.Status = "RUNNING")) := by
  have h : filterJobsByRunningAndNameBase L P
      = L.filter (fun j => decide (j.Status = "RUNNING" ∧ P.toList <+: j.Name.toList)) :=
    filter_eq_selected L P
  refine ⟨h, ?_, ?_, rfl, ?_, ?_⟩
  · rw [h]; exact List.filter_sublist L
  · intro j
    rw [h, List.mem_filter]
    simp
  · rw [h, List.filter_eq_nil_iff]
    simp
  · rw [filter_eq_selected]
    unfold selectedJobs isRunningWithBase
    congr 1
    funext j
    simp

/-- C1, at the job lists of the filter tests. -/
theorem C1_filter_selects_running_with_base_witness :
    filterJobsByRunningAndNameBase
        [{ ID := "", Name := "Prefix_Suffix", Status := "RUNNING" },
         { ID := "", Name := "Dummy_Suffix", Status := "RUNNING" }] "Prefix"
        = [{ ID := "", Name := "Prefix_Suffix", Status := "RUNNING" }]
      ∧ filterJobsByRunningAndNameBase
        [{ ID := "", Name := "Prefix_Suffix", Status := "STOPPED" },
         { ID := "", Name := "Prefix_Suffix", Status := "RUNNING" }] ""
        = [{ ID := "", Name := "Prefix_Suffix", Status := "RUNNING" }] :=
  ⟨(C1_filter_selects_running_with_base _ "Prefix").1.trans (by decide),
   (C1_filter_selects_running_with_base _ "").2.2.2.2.2.trans (by decide)⟩

/-- C2: for an update request with a non-empty job name base, when the job
list is retrieved and holds exactly one job that is RUNNING with a name
starting with the base, the savepoint request succeeds and monitoring ends
without error (so with status COMPLETED) at a non-empty location `S`, `Update`
hands exactly one record to Deploy, with `SavepointPath = S` and the other
fields those of the request, and returns what Deploy returns. -/
theorem C2_update_deploys_from_savepoint (w : World) (u : UpdateJob) (jobs : List Job)
    (job : Job) (sp : CreateSavepointResponse) (S : String)
    (hbase : u.JobNameBase ≠ "")
    (hjobs : w.RetrieveJobs = (jobs, none))
    (hone : jobs.filter (fun j => decide (j.Status = "RUNNING"
      ∧ u.JobNameBase.toList <+: j.Name.toList)) = [job])
    (hsp : w.CreateSavepoint job.ID u.SavepointDir = (sp, none))
    (hmon : (monitorSavepointCreation w job.ID sp.RequestID sixtySeconds).err = none)
    (hloc : (monitorSavepointCreation w job.ID sp.RequestID sixtySeconds).res.Operation.Location
      = S)
    (hS : S ≠ "") :
    deployCalls (Update w u).trace
        = [{ LocalFilename := u.LocalFilename
             RemoteFilename := u.RemoteFilename
             APIToken := u.APIToken
             EntryClass := u.EntryClass
             Parallelism := u.Parallelism
             ProgramArgs := u.ProgramArgs
             SavepointPath := S
             AllowNonRestoredState := u.AllowNonRestoredState }]
      ∧ (Update w u).err = w.Deploy
          { LocalFilename := u.LocalFilename
            RemoteFilename := u.RemoteFilename
            APIToken := u.APIToken
            EntryClass := u.EntryClass
            Parallelism := u.Parallelism
            ProgramArgs := u.ProgramArgs
            SavepointPath := S
            AllowNonRestoredState := u.AllowNonRestoredState }
      ∧ (∃ before, (Update w u).trace = before ++
          [Event.MonitorSavepointCreation job.ID sp.RequestID
            (monitorSavepointCreation w job.ID sp.RequestID sixtySeconds).res none,
           Event.Deploy (deployOf u S)])
      ∧ (monitorSavepointCreation w job.ID sp.RequestID sixtySeconds).res.Status.Id
          = "COMPLETED" := by
  have hs : selectedJobs jobs u.JobNameBase = [job] := hone
  have hl : (monitorSavepointCreation w job.ID sp.RequestID sixtySeconds).res.Operation.Location
      ≠ "" := by rw [hloc]; exact hS
  rw [Update_deploys w u jobs job sp hbase hjobs hs hsp hmon hl, hloc]
  obtain ⟨n, _, _, ht, hend⟩ := monitor_cases w job.ID sp.RequestID sixtySeconds
  refine ⟨?_, rfl, ?_, ?_⟩
  · simp [deployCalls_append, deployCalls, deployCalls_monitor, deployOf]
  · rcases hend with ⟨_, hres, hc⟩ | ⟨herr, _⟩
    · refine ⟨[Event.RetrieveJobs, Event.CreateSavepoint job.ID u.SavepointDir]
        ++ checkEvents w job.ID sp.RequestID 0 n, ?_⟩
      have hlast : checkEvent w job.ID sp.RequestID n
          = Event.MonitorSavepointCreation job.ID sp.RequestID
              (monitorSavepointCreation w job.ID sp.RequestID sixtySeconds).res none := by
        unfold checkEvent
        rw [hres, hc.1]
      rw [ht, checkEvents_succ, Nat.zero_add, hlast]
      simp
    · rw [hmon] at herr
      exact absurd herr (by simp)
  · rcases hend with ⟨_, hres, hc⟩ | ⟨herr, _⟩
    · rw [hres]; exact hc.2
    · rw [hmon] at herr
      exact absurd herr (by simp)

/-- C2, at the run of the update test: two pending checks, completion at
`s3://cp/1`, Deploy succeeds. -/
theorem C2_update_deploys_from_savepoint_witness :
    deployCalls (Update (testWorld "s3://cp/1") testRequest).trace
        = [deployOf testRequest "s3://cp/1"]
      ∧ (Update (testWorld "s3://cp/1") testRequest).err = none :=
  have h := C2_update_deploys_from_savepoint (testWorld "s3://cp/1") testRequest
    [{ ID := "Job-A", Name := "WordCountStateful v1.0", Status := "RUNNING" }]
    { ID := "Job-A", Name := "WordCountStateful v1.0", Status := "RUNNING" }
    { RequestID := "request-id" } "s3://cp/1"
    (by decide) rfl (by decide) rfl (by decide) (by decide) (by decide)
  ⟨h.1, h.2.1⟩

/-- C3: for an update request with a non-empty job name base and exactly one
matching RUNNING job whose savepoint request succeeds, when monitoring ends
without error (status COMPLETED) but with an empty location, `Update` fails
with the error "Savepoint creation failed" and Deploy is never invoked. -/
theorem C3_empty_location_fails_before_deploy (w : World) (u : UpdateJob) (jobs : List Job)
    (job : Job) (sp : CreateSavepointResponse)
    (hbase : u.JobNameBase ≠ "")
    (hjobs : w.RetrieveJobs = (jobs, none))
    (hone : jobs.filter (fun j => decide (j.Status = "RUNNING"
      ∧ u.JobNameBase.toList <+: j.Name.toList)) = [job])
    (hsp : w.CreateSavepoint job.ID u.SavepointDir = (sp, none))
    (hmon : (monitorSavepointCreation w job.ID sp.RequestID sixtySeconds).err = none)
    (hloc : (monitorSavepointCreation w job.ID sp.RequestID sixtySeconds).res.Operation.Location
      = "") :
    (Update w u).err = some "Savepoint creation failed"
      ∧ deployCalls (Update w u).trace = []
      ∧ (monitorSavepointCreation w job.ID sp.RequestID sixtySeconds).res.Status.Id
          = "COMPLETED" := by
  have hs : selectedJobs jobs u.JobNameBase = [job] := hone
  rw [Update_noLocation w u jobs job sp hbase hjobs hs hsp hmon hloc]
  refine ⟨rfl, ?_, ?_⟩
  · simp [deployCalls_append, deployCalls, deployCalls_monitor]
  · obtain ⟨n, _, _, _, hend⟩ := monitor_cases w job.ID sp.RequestID sixtySeconds
    rcases hend with ⟨_, hres, hc⟩ | ⟨herr, _⟩
    · rw [hres]; exact hc.2
    · rw [hmon] at herr
      exact absurd herr (by simp)

/-- C3, at the run of the test where the savepoint completes without a
location. -/
theorem C3_empty_location_fails_before_deploy_witness :
    (Update (testWorld "") testRequest).err = some "Savepoint creation failed"
      ∧ deployCalls (Update (testWorld "") testRequest).trace = [] :=
  have h := C3_empty_location_fails_before_deploy (testWorld "") testRequest
    [{ ID := "Job-A", Name := "WordCountStateful v1.0", Status := "RUNNING" }]
    { ID := "Job-A", Name := "WordCountStateful v1.0", Status := "RUNNING" }
    { RequestID := "request-id" }
    (by decide) rfl (by decide) rfl (by decide) (by decide)
  ⟨h.1, h.2.1⟩

/-- C4: for a non-empty job name base `X` and a retrieved job list with `n`
jobs RUNNING with a name starting with `X`: when `n = 0` the result of
`Update` is the error `no instance running for job name base "X". Aborting
update`, when `n ≥ 2` it is the error `job name with base "X" has n instances
running. Aborting update`; in both cases the only call made is `RetrieveJobs`
(no `CreateSavepoint`, no status check, no Deploy). -/
theorem C4_cardinality_guard (w : World) (u : UpdateJob) (jobs : List Job)
    (hbase : u.JobNameBase ≠ "")
    (hjobs : w.RetrieveJobs = (jobs, none)) :
    (jobs.countP (fun j => decide (j.Status = "RUNNING"
        ∧ u.JobNameBase.toList <+: j.Name.toList)) = 0 →
      Update w u = { trace := [Event.RetrieveJobs],
                     err := some ("no instance running for job name base \""
                       ++ u.JobNameBase ++ "\". Aborting update") })
    ∧ (2 ≤ jobs.countP (fun j => decide (j.Status = "RUNNING"
        ∧ u.JobNameBase.toList <+: j.Name.toList)) →
      Update w u = { trace := [Event.RetrieveJobs],
                     err := some ("job name with base \"" ++ u.JobNameBase ++ "\" has "
                       ++ toString (jobs.countP (fun j => decide (j.Status = "RUNNING"
                            ∧ u.JobNameBase.toList <+: j.Name.toList)))
                       ++ " instances running. Aborting update") }) := by
  have hlen : jobs.countP (fun j => decide (j.Status = "RUNNING"
        ∧ u.JobNameBase.toList <+: j.Name.toList))
      = (selectedJobs jobs u.JobNameBase).length := by
    rw [List.countP_eq_length_filter]; rfl
  rw [hlen]
  constructor
  · intro h0
    exact Update_noJob w u jobs hbase hjobs (List.length_eq_zero.mp h0)
  · intro h2
    rcases hs : selectedJobs jobs u.JobNameBase with _ | ⟨a, _ | ⟨b, rest⟩⟩
    · rw [hs] at h2; simp at h2
    · rw [hs] at h2; simp at h2
    · rw [← hs]
      exact Update_manyJobs w u jobs a b rest hbase hjobs hs

/-- C4, at the run of the test with two running jobs of the base name. -/
theorem C4_cardinality_guard_witness :
    Update twoJobsWorld testRequest
      = { trace := [Event.RetrieveJobs],
          err := some "job name with base \"WordCountStateful\" has 2 instances running. Aborting update" } :=
  (C4_cardinality_guard twoJobsWorld testRequest
    [{ ID := "Job-A", Name := "WordCountStateful v1.0", Status := "RUNNING" },
     { ID := "Job-B", Name := "WordCountStateful v1.1", Status := "RUNNING" }]
    (by decide) rfl).2 (by decide)

/-- C6: for every update request whose job name base is empty, whatever its
other fields and whatever the control plane would answer, `Update` returns the
error "unspecified argument 'JobNameBase'" and its trace is empty: no
control-plane operation and no Deploy is invoked, and the job filter is never
reached. -/
theorem C6_empty_base_rejected_first (w : World) (u : UpdateJob)
    (hbase : u.JobNameBase = "") :
    Update w u = { trace := [], err := some "unspecified argument 'JobNameBase'" } :=
  Update_noBase w u hbase

/-- C6, at the request of the test that names only a local file, on a control
plane with two running jobs. -/
theorem C6_empty_base_rejected_first_witness :
    Update twoJobsWorld { testRequest with JobNameBase := "" }
      = { trace := [], err := some "unspecified argument 'JobNameBase'" } :=
  C6_empty_base_rejected_first twoJobsWorld { testRequest with JobNameBase := "" } rfl

/-- C7, amended: for every job ID `j`, request ID `r` and budget of `n` seconds
with `1 ≤ n ≤ 9223372036` (the budgets whose `time.Duration` does not overflow
int64), when every status check fails (an error, or a status other than
COMPLETED) until the clock stops the retries, `monitorSavepointCreation`
returns the zero-valued response, not the last polled one, with the error
`failed to create savepoint for job "j" within T seconds`, where `T` is the
budget as Go prints the float64 of its seconds: the decimal `n` when
`n < 1000000`, exponent notation from there on. The error does not depend on
the errors of the status checks. -/
theorem C7_timeout_returns_zero_response_and_budget_error (w : World) (j r : String)
    (n : Nat) (hpos : 0 < n) (hmax : n ≤ 9223372036)
    (hall : ∀ k, k ≤ w.delays → checkFails w j r k) :
    (monitorSavepointCreation w j r ⟨n, hpos, by omega⟩).res
        = MonitorSavepointCreationResponse.zero
      ∧ (monitorSavepointCreation w j r ⟨n, hpos, by omega⟩).err
          = some ("failed to create savepoint for job \"" ++ j ++ "\" within "
              ++ formatSeconds n ++ " seconds")
      ∧ (n < 1000000 →
          (monitorSavepointCreation w j r ⟨n, hpos, by omega⟩).err
            = some ("failed to create savepoint for job \"" ++ j ++ "\" within "
                ++ toString n ++ " seconds"))
      ∧ statusChecks (monitorSavepointCreation w j r ⟨n, hpos, by omega⟩).trace
          = w.delays + 1 := by
  obtain ⟨m, hm, _, ht, hend⟩ := monitor_cases w j r ⟨n, hpos, by omega⟩
  rcases hend with ⟨_, _, hc⟩ | ⟨herr, hres, _, hd⟩
  · exact absurd hc ((checkFails_iff w j r m).1 (hall m hm))
  · refine ⟨hres, herr, ?_, ?_⟩
    · intro hb
      rw [herr]
      simp [formatSeconds, hb]
    · rw [ht, statusChecks_checkEvents, hd]

/-- C7 amended, at the monitoring test: a first check that returns the error
"failed", then a failed phase with a partial location, a budget of one
second. -/
theorem C7_timeout_returns_zero_response_and_budget_error_witness :
    (monitorSavepointCreation stuckWorld "job-id" "request-id" oneSecond).res
        = MonitorSavepointCreationResponse.zero
      ∧ (monitorSavepointCreation stuckWorld "job-id" "request-id" oneSecond).err
        = some "failed to create savepoint for job \"job-id\" within 1 seconds"
      ∧ (stuckWorld.MonitorSavepointCreation 2 "job-id" "request-id").1.Operation.Location
        = "/data/flink/partial" :=
  have h := C7_timeout_returns_zero_response_and_budget_error stuckWorld "job-id" "request-id"
    1 (by decide) (by decide) (by decide)
  ⟨h.1, h.2.2.1 (by decide), by decide⟩

/-- C7 as stated fails for a budget of 1000000 seconds: every status check
fails until the clock stops the retries, and the error text is `... within
1e+06 seconds`, not `... within 1000000 seconds`. -/
theorem C7_counterexample_million_seconds :
    stuckWorld.delays = 2
      ∧ checkFails stuckWorld "job-id" "request-id" 0
      ∧ checkFails stuckWorld "job-id" "request-id" 1
      ∧ checkFails stuckWorld "job-id" "request-id" 2
      ∧ millionSeconds.seconds = 1000000
      ∧ (monitorSavepointCreation stuckWorld "job-id" "request-id" millionSeconds).err
          = some "failed to create savepoint for job \"job-id\" within 1e+06 seconds"
      ∧ (monitorSavepointCreation stuckWorld "job-id" "request-id" millionSeconds).err
          ≠ some (timeoutText "job-id" 1000000) := by
  decide

/-- C8: for every `N ≥ 1`, when the first `N - 1` status checks each fail (an
error, IN_PROGRESS or an unrecognised status), check number `N` returns no
error and COMPLETED, and the clock allows the `N - 1` delays in between,
`monitorSavepointCreation` makes exactly `N` status checks and returns, with
no error, the response of the last one, whose status is COMPLETED. A failing
check is retried as long as the clock allows a delay, and whenever the result
carries no error its status is COMPLETED. -/
theorem C8_poll_returns_first_completed_check (w : World) (j r : String) (b : Budget) :
    (∀ N, 1 ≤ N → N - 1 ≤ w.delays →
        (∀ k, k < N - 1 → checkFails w j r k) → checkCompletes w j r (N - 1) →
        statusChecks (monitorSavepointCreation w j r b).trace = N
          ∧ (monitorSavepointCreation w j r b).trace = checkEvents w j r 0 N
          ∧ (monitorSavepointCreation w j r b).err = none
          ∧ (monitorSavepointCreation w j r b).res = (w.MonitorSavepointCreation (N - 1) j r).1
          ∧ (monitorSavepointCreation w j r b).res.Status.Id = "COMPLETED")
      ∧ (∀ k, k < w.delays → (∀ i, i ≤ k → checkFails w j r i) →
          k + 2 ≤ statusChecks (monitorSavepointCreation w j r b).trace)
      ∧ ((monitorSavepointCreation w j r b).err = none →
          (monitorSavepointCreation w j r b).res.Status.Id = "COMPLETED") := by
  obtain ⟨n, hn, hfail, ht, hend⟩ := monitor_cases w j r b
  refine ⟨?_, ?_, ?_⟩
  · intro N hN hbudget hfirst hlast
    have hnN : n = N - 1 := by
      rcases Nat.lt_trichotomy n (N - 1) with hlt | heq | hgt
      · have hf := hfirst n hlt
        rcases hend with ⟨_, _, hc⟩ | ⟨_, _, _, hd⟩
        · exact absurd hc ((checkFails_iff w j r n).1 hf)
        · omega
      · exact heq
      · exact absurd hlast ((checkFails_iff w j r (N - 1)).1 (hfail (N - 1) hgt))
    have hN1 : n + 1 = N := by omega
    rcases hend with ⟨herr, hres, hc⟩ | ⟨_, _, hf, _⟩
    · rw [ht, statusChecks_checkEvents, hN1, hres, ← hnN]
      exact ⟨rfl, rfl, herr, rfl, hc.2⟩
    · rw [hnN] at hf
      exact absurd hlast ((checkFails_iff w j r (N - 1)).1 hf)
  · intro k hk hall
    rw [ht, statusChecks_checkEvents]
    by_cases hle : n ≤ k
    · have hf := hall n hle
      rcases hend with ⟨_, _, hc⟩ | ⟨_, _, _, hd⟩
      · exact absurd hc ((checkFails_iff w j r n).1 hf)
      · omega
    · omega
  · intro herr
    rcases hend with ⟨_, hres, hc⟩ | ⟨herr2, _⟩
    · rw [hres]; exact hc.2
    · rw [herr] at herr2
      exact absurd herr2 (by simp)

/-- C8, at a run where two checks report IN_PROGRESS and the third completes. -/
theorem C8_poll_returns_first_completed_check_witness :
    statusChecks (monitorSavepointCreation (testWorld "s3://cp/1") "Job-A" "request-id"
        oneSecond).trace = 3
      ∧ (monitorSavepointCreation (testWorld "s3://cp/1") "Job-A" "request-id" oneSecond).res
        = status "COMPLETED" "s3://cp/1" :=
  have h := (C8_poll_returns_first_completed_check (testWorld "s3://cp/1") "Job-A" "request-id"
    oneSecond).1 3 (by decide) (by decide) (by decide) (by decide)
  ⟨h.1, h.2.2.2.1⟩

/-- C5 as stated fails: a request that names a job but neither a local nor a
remote file makes `Update` retrieve the jobs, request the savepoint of `Job-A`
and poll it three times, and only then hand the record to the Deploy step,
which returns the configuration error. -/
theorem C5_counterexample_calls_before_configuration_error :
    noArtifactRequest.LocalFilename = "" ∧ noArtifactRequest.RemoteFilename = ""
      ∧ Update specDeployWorld noArtifactRequest
        = { trace := [Event.RetrieveJobs,
              Event.CreateSavepoint "Job-A" "/data/flink",
              Event.MonitorSavepointCreation "Job-A" "request-id" (status "IN_PROGRESS" "") none,
              Event.MonitorSavepointCreation "Job-A" "request-id" (status "IN_PROGRESS" "") none,
              Event.MonitorSavepointCreation "Job-A" "request-id"
                (status "COMPLETED" "s3://cp/1") none,
              Event.Deploy (deployOf noArtifactRequest "s3://cp/1")],
            err := some
              "both properties 'RemoteFilename' and 'LocalFilename' are unspecified" } := by
  decide

/-- C5, amended: for every update request whose local and remote file names
are both unset, with the Deploy step of the specification, `Update` fails and
the Deploy step, if reached, makes no upload and no run call and gives the
error of the missing artifact; `Update` makes no control-plane call exactly
when the job name base is empty (error "unspecified argument 'JobNameBase'");
with a non-empty base its first call is `RetrieveJobs`, and the Deploy step is
reached only after a savepoint request and at least one status check. -/
theorem C5_missing_artifact_found_by_deploy_step (w : World) (c : DeployWorld) (u : UpdateJob)
    (hl : u.LocalFilename = "") (hr : u.RemoteFilename = "")
    (hw : w.Deploy = fun d => (DeployStep c d).err) :
    (Update w u).err ≠ none
      ∧ (∀ d, d ∈ deployCalls (Update w u).trace →
          (DeployStep c d).calls = []
            ∧ (Update w u).err
              = some "both properties 'RemoteFilename' and 'LocalFilename' are unspecified"
            ∧ (∃ jobID, Event.CreateSavepoint jobID u.SavepointDir ∈ (Update w u).trace)
            ∧ 1 ≤ statusChecks (Update w u).trace)
      ∧ ((Update w u).trace = [] ↔ u.JobNameBase = "")
      ∧ (u.JobNameBase = "" →
          (Update w u).err = some "unspecified argument 'JobNameBase'")
      ∧ (u.JobNameBase ≠ "" → (Update w u).trace.head? = some Event.RetrieveJobs) := by
  have hstep : ∀ S, DeployStep c (deployOf u S)
      = { calls := [],
          err := some "both properties 'RemoteFilename' and 'LocalFilename' are unspecified" } := by
    intro S
    simp [DeployStep, deployOf, hl, hr]
  have hbase : u.JobNameBase = "" →
      (Update w u).err = some "unspecified argument 'JobNameBase'" := by
    intro hb
    rw [Update_noBase w u hb]
  rcases Update_guard_or_deploy w u with ⟨hnone, herr, hempty, hfirst⟩ | ⟨jobs, job, sp, hb, _, _, _, _, _, hU⟩
  · refine ⟨herr, ?_, hempty, hbase, hfirst⟩
    intro d hd
    rw [hnone] at hd
    exact absurd hd (List.not_mem_nil d)
  · obtain ⟨n, _, _, ht, _⟩ := monitor_cases w job.ID sp.RequestID sixtySeconds
    rw [hU, hw]
    simp only [hstep]
    refine ⟨by simp, ?_, ?_, fun h => absurd h hb, fun _ => by simp⟩
    · intro d hd
      have hd2 : d = deployOf u (monitorSavepointCreation w job.ID sp.RequestID
          sixtySeconds).res.Operation.Location := by
        simpa [deployCalls_append, deployCalls, deployCalls_monitor] using hd
      rw [hd2, hstep]
      refine ⟨by simp, by simp, ⟨job.ID, by simp⟩, ?_⟩
      rw [ht]
      simp [checkEvents, checkEvent, statusChecks]
    · simp [hb]

/-- C5 amended, at the request that names a job but no artifact: `Update`
fails with the error of the Deploy step, whose only record leads to no call. -/
theorem C5_missing_artifact_found_by_deploy_step_witness :
    (Update specDeployWorld noArtifactRequest).err ≠ none
      ∧ (Update specDeployWorld noArtifactRequest).trace.head? = some Event.RetrieveJobs :=
  have h := C5_missing_artifact_found_by_deploy_step specDeployWorld testDeployWorld
    noArtifactRequest rfl rfl rfl
  ⟨h.1, h.2.2.2.2 (by decide)⟩

/-- C10: in every run of `Update`, Deploy is invoked at most once, and when
it is invoked the step just before it is a status check for the one selected
job that answered COMPLETED without error and with a non-empty location, the
location Deploy receives as its savepoint path, with no call of Deploy earlier
in the run; and whenever `Update` stops at a guard (empty job name base, job
retrieval failure, zero or several matching jobs, savepoint request failure,
monitoring failure or timeout, empty location), Deploy is never invoked. -/
theorem C10_deploy_only_after_completed_savepoint (w : World) (u : UpdateJob) :
    (deployCalls (Update w u).trace).length ≤ 1
      ∧ (∀ d, Event.Deploy d ∈ (Update w u).trace →
          ∃ before job requestID res,
            (Update w u).trace
                = before ++ [Event.MonitorSavepointCreation job.ID requestID res none,
                    Event.Deploy d]
              ∧ deployCalls before = []
              ∧ selectedJobs w.RetrieveJobs.1 u.JobNameBase = [job]
              ∧ res.Status.Id = "COMPLETED"
              ∧ res.Operation.Location ≠ ""
              ∧ d.SavepointPath = res.Operation.Location)
      ∧ (u.JobNameBase = "" → deployCalls (Update w u).trace = [])
      ∧ (w.RetrieveJobs.2 ≠ none → deployCalls (Update w u).trace = [])
      ∧ ((selectedJobs w.RetrieveJobs.1 u.JobNameBase).length ≠ 1 →
          deployCalls (Update w u).trace = [])
      ∧ (∀ job, selectedJobs w.RetrieveJobs.1 u.JobNameBase = [job] →
          (w.CreateSavepoint job.ID u.SavepointDir).2 ≠ none →
          deployCalls (Update w u).trace = [])
      ∧ (∀ job, selectedJobs w.RetrieveJobs.1 u.JobNameBase = [job] →
          (monitorSavepointCreation w job.ID
            (w.CreateSavepoint job.ID u.SavepointDir).1.RequestID sixtySeconds).err ≠ none →
          deployCalls (Update w u).trace = [])
      ∧ (∀ job, selectedJobs w.RetrieveJobs.1 u.JobNameBase = [job] →
          (monitorSavepointCreation w job.ID
            (w.CreateSavepoint job.ID u.SavepointDir).1.RequestID
              sixtySeconds).res.Operation.Location = "" →
          deployCalls (Update w u).trace = []) := by
  rcases Update_guard_or_deploy w u with ⟨hnone, _, _, _⟩ | ⟨jobs, job, sp, hb, hj, hs, hc, hm, hl, hU⟩
  · refine ⟨by rw [hnone]; exact Nat.zero_le 1, ?_, fun _ => hnone, fun _ => hnone,
      fun _ => hnone, fun _ _ _ => hnone, fun _ _ _ => hnone, fun _ _ _ => hnone⟩
    intro d hd
    rw [mem_deployCalls, hnone] at hd
    exact absurd hd (List.not_mem_nil d)
  · have hsel : selectedJobs w.RetrieveJobs.1 u.JobNameBase = [job] := by rw [hj]; exact hs
    have hcalls : deployCalls (Update w u).trace
        = [deployOf u (monitorSavepointCreation w job.ID sp.RequestID
            sixtySeconds).res.Operation.Location] := by
      rw [hU]
      simp [deployCalls_append, deployCalls, deployCalls_monitor]
    have hsame : ∀ job2, selectedJobs w.RetrieveJobs.1 u.JobNameBase = [job2] → job2 = job := by
      intro job2 h2
      rw [hsel] at h2
      simpa using h2.symm
    obtain ⟨hid, before, hbefore, htrace⟩ := monitor_ends_completed w job.ID sp.RequestID
      sixtySeconds hm
    refine ⟨by rw [hcalls]; exact Nat.le_refl 1, ?_, fun h => absurd h hb, ?_, ?_, ?_, ?_, ?_⟩
    · intro d hd
      rw [mem_deployCalls, hcalls] at hd
      have hd2 := List.mem_singleton.mp hd
      refine ⟨[Event.RetrieveJobs, Event.CreateSavepoint job.ID u.SavepointDir] ++ before, job,
        sp.RequestID, (monitorSavepointCreation w job.ID sp.RequestID sixtySeconds).res,
        ?_, ?_, hsel, hid, hl, ?_⟩
      · rw [hU, htrace, hd2]
        simp
      · simp [deployCalls_append, deployCalls, hbefore]
      · rw [hd2]; rfl
    · intro h
      rw [hj] at h
      exact absurd rfl h
    · intro h
      rw [hsel] at h
      exact absurd rfl h
    · intro job2 h2 hne
      rw [hsame job2 h2, hc] at hne
      exact absurd rfl hne
    · intro job2 h2 hne
      rw [hsame job2 h2, hc] at hne
      exact absurd hm hne
    · intro job2 h2 hempty
      rw [hsame job2 h2, hc] at hempty
      exact absurd hempty hl

/-- C10, at the run of the update test and at a run whose monitoring times
out: one call of Deploy after the completed check, none after the timeout. -/
theorem C10_deploy_only_after_completed_savepoint_witness :
    deployCalls (Update (testWorld "s3://cp/1") testRequest).trace
        = [deployOf testRequest "s3://cp/1"]
      ∧ (deployCalls (Update (testWorld "s3://cp/1") testRequest).trace).length ≤ 1
      ∧ deployCalls (Update stuckWorld testRequest).trace = [] :=
  ⟨by decide,
   (C10_deploy_only_after_completed_savepoint (testWorld "s3://cp/1") testRequest).1,
   (C10_deploy_only_after_completed_savepoint stuckWorld testRequest).2.2.2.2.2.2.1
     { ID := "Job-A", Name := "WordCountStateful v1.0", Status := "RUNNING" }
     (by decide) (by decide)⟩

end operations

namespace flink

theorem length_pos_iff (d : String) : d.length > 0 ↔ d ≠ "" := by
  rcases d with ⟨l⟩
  cases l with
  | nil => simp [String.length]
  | cons c cs =>
    simp only [String.length, List.length_cons, gt_iff_lt, Nat.zero_lt_succ, true_iff]
    intro h
    have := congrArg String.data h
    simp at this

theorem CreateSavepoint_body (c : FlinkRestClient) (jobID d : String) :
    (CreateSavepoint c jobID d).body = CreateSavepoint.req d := by
  unfold CreateSavepoint
  simp only
  split
  · rfl
  · split
    · rfl
    · split
      · rfl
      · split <;> rfl

/-- C9: for every job ID and savepoint directory `d`, the request map that
`CreateSavepoint` builds and posts holds the key "target-directory" exactly
when `d` is non-empty, with the value `d`; it always holds "cancel-job" set to
true; it holds no other key. An empty `d` gives the one-entry map. -/
theorem C9_request_body_keys (c : FlinkRestClient) (jobID d : String) :
    ("target-directory" ∈ mapKeys (CreateSavepoint c jobID d).body ↔ d ≠ "")
      ∧ (mapGet (CreateSavepoint c jobID d).body "target-directory"
          = if d = "" then none else some (JsonValue.str d))
      ∧ mapGet (CreateSavepoint c jobID d).body "cancel-job" = some (JsonValue.bool true)
      ∧ (∀ k, k ∈ mapKeys (CreateSavepoint c jobID d).body →
          k = "target-directory" ∨ k = "cancel-job")
      ∧ (CreateSavepoint c jobID d).body
          = (if d = "" then [("cancel-job", JsonValue.bool true)]
             else [("target-directory", JsonValue.str d), ("cancel-job", JsonValue.bool true)])
      ∧ (CreateSavepoint c jobID d).contentType = "application/json" := by
  have hbody : (CreateSavepoint c jobID d).body
      = (if d = "" then [("cancel-job", JsonValue.bool true)]
         else [("target-directory", JsonValue.str d), ("cancel-job", JsonValue.bool true)]) := by
    rw [CreateSavepoint_body]
    unfold CreateSavepoint.req
    by_cases hd : d = ""
    · subst hd
      decide
    · have hpos : d.length > 0 := (length_pos_iff d).2 hd
      simp only [hpos, hd, if_true, if_false]
      simp [mapSet]
  have hct : (CreateSavepoint c jobID d).contentType = "application/json" := by
    unfold CreateSavepoint
    simp only
    split
    · rfl
    · split
      · rfl
      · split
        · rfl
        · split <;> rfl
  rw [hbody]
  by_cases hd : d = ""
  · subst hd
    simp only [if_true]
    refine ⟨by decide, by decide, by decide, ?_, trivial, hct⟩
    intro k hk
    simp [mapKeys] at hk
    exact Or.inr hk
  · simp only [hd, if_false]
    refine ⟨?_, ?_, ?_, ?_, trivial, hct⟩
    · simp [mapKeys, hd]
    · simp [mapGet]
    · simp [mapGet]
    · intro k hk
      simpa [mapKeys] using hk

/-- C9, at the savepoint directory of the update tests and at the empty one. -/
theorem C9_request_body_keys_witness :
    (CreateSavepoint operations.testClient "Job-A" "/data/flink").body
        = [("target-directory", JsonValue.str "/data/flink"), ("cancel-job", JsonValue.bool true)]
      ∧ (CreateSavepoint operations.testClient "Job-A" "").body = [("cancel-job", JsonValue.bool true)] :=
  ⟨(C9_request_body_keys operations.testClient "Job-A" "/data/flink").2.2.2.2.1.trans (by decide),
   (C9_request_body_keys operations.testClient "Job-A" "").2.2.2.2.1.trans (by decide)⟩

end flink
